import Mathlib

/-!
Shallow embedding of the design-code codec, the tile counting, the layer
rendering and the error serialization of the acnh-api repository
(src/acnh/designs.py, src/acnh/errors.py, src/acnh/designs/render.py),
with theorems checking the natural-language specification against it.
-/

namespace ACNH

/-- The error raised by `design_id` (src/acnh/designs.py, `InvalidDesignCodeError`). -/
inductive DesignsError where
  | invalidDesignCode
deriving DecidableEq, Repr

/-- The 30-symbol design-code alphabet
(src/acnh/designs.py line 39: `'0123456789BCDFGHJKLMNPQRSTVWXY'`). -/
def DESIGN_CODE_ALPHABET : List Char := "0123456789BCDFGHJKLMNPQRSTVWXY".toList

/-- `DESIGN_CODE_ALPHABET = {c: i for i, c in enumerate(...)}`: the dict maps each
alphabet character to its position.  The alphabet has no repeated characters, so the
dict lookup is the index of the first occurrence. -/
def alphabetValue (c : Char) : Option Nat :=
  DESIGN_CODE_ALPHABET.findIdx? (fun a => a = c)

/-- The loop of `design_id` (src/acnh/designs.py lines 43-49): Horner accumulation
`n = n * 30 + value(c)`, raising `InvalidDesignCodeError` on a character that is
not a key of the alphabet dict (the `except KeyError` branch). -/
def designIdLoop : Nat → List Char → Except DesignsError Nat
  | n, [] => .ok n
  | n, c :: cs =>
    match alphabetValue c with
    | some v => designIdLoop (n * 30 + v) cs
    | none => .error DesignsError.invalidDesignCode

/-- `design_id` (src/acnh/designs.py lines 41-50): remove the hyphens
(`pattern_code.replace('-', '')`), then run the Horner loop from 0. -/
def design_id (pattern_code : String) : Except DesignsError Nat :=
  designIdLoop 0 (pattern_code.toList.filter (fun c => c ≠ '-'))

/-- Modelled from the spec: `encode(id) -> code` (`design_code`) lives in
`acnh/designs/api.py`, which is not under src/; the spec says "inverse base-30
expansion to exactly 12 digits (zero-padded), grouped into three hyphen-separated
4-character segments".  `base30digits k n` is the `k`-digit zero-padded base-30
expansion of `n`, most significant digit first. -/
def base30digits : Nat → Nat → List Nat
  | 0, _ => []
  | k + 1, n => base30digits k (n / 30) ++ [n % 30]

/-- Digit-to-symbol table of the encoder: position `d` of the alphabet. -/
def toCodeChar (d : Nat) : Char := DESIGN_CODE_ALPHABET.getD d '0'

/-- Modelled from the spec: `encode(id) -> code` — twelve base-30 digits rendered
through the alphabet and grouped `XXXX-XXXX-XXXX`. -/
def design_code (n : Nat) : String :=
  let cs := (base30digits 12 n).map toCodeChar
  String.mk (cs.take 4 ++ ['-'] ++ (cs.drop 4).take 4 ++ ['-'] ++ cs.drop 8)

/-- Modelled from the spec: the tile width `WIDTH` is imported from
`acnh/designs/format.py`, which is not under src/; the spec fixes 32×32-pixel
tiles ("a 64×64-pixel upload with a 32×32 tile size yields exactly 4
single-tile Designs", §8). -/
def WIDTH : Nat := 32

/-- Modelled from the spec: the tile height `HEIGHT` from `acnh/designs/format.py`
(not under src/), 32 pixels. -/
def HEIGHT : Nat := 32

/-- `num_tiles` (src/acnh/errors.py lines 172-173):
`return width // WIDTH * height // HEIGHT`.  Python's `//` and `*` share one
precedence level and associate left, so this is `((width // WIDTH) * height) // HEIGHT`;
Lean's `/` and `*` parse the same way. -/
def num_tiles (width height : Nat) : Nat :=
  width / WIDTH * height / HEIGHT

/-- The remote design document as `render.py` reads it: `raw_image['mPalette']` is a
mapping (keys already passed through `int(ind)`) from palette slot to a 32-bit RGBA
color, kept in insertion order as an association list. -/
structure RawImage where
  mPalette : List (Nat × Nat)
deriving Repr

/-- Python dict assignment `d[k] = v`: overwrite in place, or append a new key. -/
def dictInsert (d : Nat → Option Nat) (k v : Nat) : Nat → Option Nat :=
  fun i => if i = k then some v else d i

/-- `gen_palette` (src/acnh/designs/render.py lines 11-17): copy every
`int(ind) ↦ color` entry of `mPalette` into a fresh dict, then set
`palette[0xF] = 0` ("implicit transparent"). -/
def gen_palette (raw_image : RawImage) : Nat → Option Nat :=
  dictInsert
    (raw_image.mPalette.foldl (fun acc kv => dictInsert acc kv.1 kv.2) (fun _ => none))
    0xF 0

/-- Failures of `_render_layer`: a palette lookup `palette[nibble]` on a missing
key (Python `KeyError`), or the buffer-length validation of wand's
`import_pixels` on the final import into the fixed-size RGBA image. -/
inductive RenderError where
  | keyError
  | importSizeMismatch
deriving DecidableEq, Repr

/-- `color.to_bytes(4, byteorder='big')`: the four big-endian bytes of a 32-bit
RGBA color, so the last byte is the alpha channel. -/
def toBytesBE4 (color : Nat) : List Nat :=
  [color / 2 ^ 24 % 256, color / 2 ^ 16 % 256, color / 2 ^ 8 % 256, color % 256]

/-- One iteration of `for nibble in b1, b2: out.write(palette[nibble].to_bytes(4, 'big'))`
(src/acnh/designs/render.py lines 30-31): look the nibble up in the palette dict and
emit the color's four bytes, or raise `KeyError`. -/
def renderNibble (palette : Nat → Option Nat) (nibbleVal : Nat) : Except RenderError (List Nat) :=
  match palette nibbleVal with
  | some color => .ok (toBytesBE4 color)
  | none => .error RenderError.keyError

/-- The byte loop of `_render_layer` (src/acnh/designs/render.py lines 26-31):
for each byte, `b1 = byte & 0xF` (low nibble) then `b2 = (byte >> 4) & 0xF`
(high nibble), writing `b1`'s pixel before `b2`'s. -/
def renderBytes (palette : Nat → Option Nat) : List Nat → Except RenderError (List Nat)
  | [] => .ok []
  | byte :: rest =>
    match renderNibble palette (byte % 16) with
    | .error e => .error e
    | .ok p1 =>
      match renderNibble palette (byte / 16 % 16) with
      | .error e => .error e
      | .ok p2 =>
        match renderBytes palette rest with
        | .error e => .error e
        | .ok ps => .ok (p1 ++ (p2 ++ ps))

/-- `_render_layer` (src/acnh/designs/render.py lines 19-35).  Line 20 immediately
rebinds the `palette` parameter to `gen_palette(raw_image)`, shadowing the argument.
The byte loop fills the buffer, and the final `im.import_pixels(channel_map='RGBA', ...)`
into the `WIDTH`×`HEIGHT` image validates the buffer length (wand raises when
`len(data)` differs from `WIDTH*HEIGHT*4`); the result is the RGBA byte raster. -/
def _render_layer (raw_image : RawImage) (palette : Nat → Option Nat) (layer : List Nat) :
    Except RenderError (List Nat) :=
  let palette := gen_palette raw_image
  match renderBytes palette layer with
  | .error e => .error e
  | .ok out =>
    if out.length = WIDTH * HEIGHT * 4 then .ok out
    else .error RenderError.importSizeMismatch

/-- The pixel stream the spec describes for unpacking: per input byte, the four
big-endian color bytes of the low nibble's palette entry followed by those of the
high nibble's. -/
def unpackPixels (palette : Nat → Option Nat) (layer : List Nat) : List Nat :=
  layer.flatMap fun byte =>
    toBytesBE4 ((palette (byte % 16)).getD 0) ++ toBytesBE4 ((palette (byte / 16 % 16)).getD 0)

/-- A JSON-able value of an error dict: the message is a string, the codes and
counts are integers. -/
inductive DVal where
  | str (s : String)
  | nat (n : Nat)
deriving DecidableEq, Repr

/-- A Python dict keyed by strings, in insertion order. -/
abbrev PyDict : Type := List (String × DVal)

/-- Python dict assignment `d[k] = v` for string keys: overwrite in place when the
key exists, otherwise append. -/
def dictSet (d : PyDict) (k : String) (v : DVal) : PyDict :=
  if (List.lookup k d).isSome then
    d.map (fun kv => if kv.1 = k then (k, v) else kv)
  else d ++ [(k, v)]

/-- The exception a to_dict call itself can raise: reading a class attribute that
was only annotated, never assigned (Python `AttributeError`). -/
inductive PyExn where
  | attributeError
deriving DecidableEq, Repr

/-- The class attributes Python resolves on an `ACNHError` instance: `code`,
`message` and `http_status` are `ClassVar` annotations on the base class
(src/acnh/errors.py lines 13-15) that a concrete class may or may not assign;
an unassigned one is `none` and reading it raises `AttributeError`. -/
structure ErrClass where
  code : Option Nat
  message : Option String
  http_status : Option Nat
deriving Repr

/-- `ACNHError.to_dict` (src/acnh/errors.py lines 20-21):
`{'error': self.message.format(self), 'error_code': self.code, 'http_status': self.http_status}`,
for classes whose message has no format placeholders (`format` is then the
identity).  Reading a never-assigned attribute raises `AttributeError`. -/
def ACNHError_to_dict (cls : ErrClass) : Except PyExn PyDict :=
  match cls.message, cls.code, cls.http_status with
  | some m, some c, some h =>
    .ok [("error", DVal.str m), ("error_code", DVal.nat c), ("http_status", DVal.nat h)]
  | _, _, _ => .error PyExn.attributeError

/-- `InvalidLayerIndexError` (src/acnh/errors.py lines 88-90) assigns
`code = 206` and `message = 'Invalid layer index'`; neither it nor `DesignError`
nor `ACNHError` ever assigns `http_status`. -/
def InvalidLayerIndexError_cls : ErrClass :=
  { code := some 206, message := some "Invalid layer index", http_status := none }

/-- `InvalidLayerIndexError.to_dict` (src/acnh/errors.py lines 96-98):
`d = super().to_dict()`, then `d['num_layers'] = self.num_layers`, and the method
body ends there — there is no `return` statement, so a normal exit returns Python
`None` (modelled as `Option.none`); an exception in `super().to_dict()` propagates. -/
def InvalidLayerIndexError_to_dict (num_layers : Nat) : Except PyExn (Option PyDict) :=
  match ACNHError_to_dict InvalidLayerIndexError_cls with
  | .error e => .error e
  | .ok d =>
    let _ := dictSet d "num_layers" (DVal.nat num_layers)
    .ok none

/-! Helper lemmas about the design-code codec. -/

lemma alphabetValue_toCodeChar : ∀ d, d < 30 → alphabetValue (toCodeChar d) = some d := by
  decide

lemma toCodeChar_ne_hyphen : ∀ d, d < 30 → toCodeChar d ≠ '-' := by
  decide

lemma base30digits_lt : ∀ (k n : Nat), ∀ d ∈ base30digits k n, d < 30 := by
  intro k
  induction k with
  | zero => intro n d hd; simp [base30digits] at hd
  | succ k ih =>
    intro n d hd
    rw [base30digits] at hd
    rcases List.mem_append.mp hd with h | h
    · exact ih _ d h
    · simp only [List.mem_singleton] at h
      omega

lemma designIdLoop_map_toCodeChar : ∀ (ds : List Nat) (acc : Nat), (∀ d ∈ ds, d < 30) →
    designIdLoop acc (ds.map toCodeChar) = .ok (ds.foldl (fun a d => a * 30 + d) acc) := by
  intro ds
  induction ds with
  | nil => intro acc _; rfl
  | cons d ds ih =>
    intro acc h
    have hd : d < 30 := h d (List.mem_cons_self d ds)
    rw [List.map_cons, designIdLoop, alphabetValue_toCodeChar d hd]
    show designIdLoop (acc * 30 + d) (ds.map toCodeChar) = _
    rw [ih (acc * 30 + d) (fun x hx => h x (List.mem_cons_of_mem _ hx))]
    rfl

lemma foldl_base30digits : ∀ (k n acc : Nat),
    (base30digits k n).foldl (fun a d => a * 30 + d) acc = acc * 30 ^ k + n % 30 ^ k := by
  intro k
  induction k with
  | zero => intro n acc; simp [base30digits, Nat.mod_one]
  | succ k ih =>
    intro n acc
    rw [base30digits, List.foldl_append, ih]
    simp only [List.foldl_cons, List.foldl_nil]
    rw [pow_succ' 30 k, Nat.mod_mul]
    ring

lemma filter_design_code (n : Nat) :
    (design_code n).toList.filter (fun c => c ≠ '-') = (base30digits 12 n).map toCodeChar := by
  have hne : ∀ c ∈ (base30digits 12 n).map toCodeChar, c ≠ '-' := by
    intro c hc
    obtain ⟨d, hd, rfl⟩ := List.mem_map.mp hc
    exact toCodeChar_ne_hyphen d (base30digits_lt 12 n d hd)
  set cs := (base30digits 12 n).map toCodeChar with hcs
  show (cs.take 4 ++ ['-'] ++ (cs.drop 4).take 4 ++ ['-'] ++ cs.drop 8).filter
      (fun c => c ≠ '-') = cs
  have hfil : ∀ l : List Char, (∀ c ∈ l, c ≠ '-') → l.filter (fun c => c ≠ '-') = l := by
    intro l hl
    apply List.filter_eq_self.mpr
    intro a ha
    simpa using hl a ha
  rw [List.filter_append, List.filter_append, List.filter_append, List.filter_append]
  rw [hfil _ (fun c hc => hne c (List.take_subset 4 cs hc))]
  rw [hfil _ (fun c hc => hne c (List.drop_subset 4 cs (List.take_subset 4 _ hc)))]
  rw [hfil _ (fun c hc => hne c (List.drop_subset 8 cs hc))]
  have hdash : List.filter (fun c => decide (c ≠ '-')) ['-'] = [] := by decide
  rw [hdash]
  simp only [List.append_nil, List.append_assoc]
  rw [show (8 : Nat) = 4 + 4 from rfl, ← List.drop_drop]
  rw [List.take_append_drop 4 (cs.drop 4), List.take_append_drop 4 cs]

lemma designIdLoop_error_iff : ∀ (cs : List Char) (acc : Nat),
    designIdLoop acc cs = .error DesignsError.invalidDesignCode ↔
      ∃ c ∈ cs, alphabetValue c = none := by
  intro cs
  induction cs with
  | nil => intro acc; simp [designIdLoop]
  | cons c cs ih =>
    intro acc
    cases hc : alphabetValue c with
    | none => simp [designIdLoop, hc]
    | some v => simp [designIdLoop, hc, ih]

/-! Helper lemmas about the layer unpacking loop. -/

lemma renderBytes_covered : ∀ (pal : Nat → Option Nat) (layer : List Nat),
    (∀ b ∈ layer, (pal (b % 16)).isSome ∧ (pal (b / 16 % 16)).isSome) →
    renderBytes pal layer = .ok (unpackPixels pal layer) := by
  intro pal layer
  induction layer with
  | nil => intro _; rfl
  | cons b bs ih =>
    intro h
    obtain ⟨h1, h2⟩ := h b (List.mem_cons_self b bs)
    obtain ⟨c1, hc1⟩ := Option.isSome_iff_exists.mp h1
    obtain ⟨c2, hc2⟩ := Option.isSome_iff_exists.mp h2
    rw [renderBytes]
    simp [renderNibble, hc1, hc2, ih (fun x hx => h x (List.mem_cons_of_mem _ hx)),
      unpackPixels, List.flatMap_cons]

lemma unpackPixels_length : ∀ (pal : Nat → Option Nat) (layer : List Nat),
    (unpackPixels pal layer).length = 8 * layer.length := by
  intro pal layer
  induction layer with
  | nil => rfl
  | cons b bs ih =>
    have h4 : ∀ c : Nat, (toBytesBE4 c).length = 4 := fun c => rfl
    have hcons : unpackPixels pal (b :: bs) =
        toBytesBE4 ((pal (b % 16)).getD 0) ++
          (toBytesBE4 ((pal (b / 16 % 16)).getD 0) ++ unpackPixels pal bs) := by
      simp [unpackPixels, List.flatMap_cons]
    rw [hcons, List.length_append, List.length_append, h4, h4, ih, List.length_cons]
    omega

/-- A sample design document with palette slots 1 and 2 populated. -/
def sampleRaw : RawImage := ⟨[(1, 4278190335), (2, 16711935)]⟩

/-! Claim theorems. -/

/-- C1: for every id in [0, 30^12), encoding it to a design code and decoding the
code with `design_id` returns the original id (encode and decode are exact
inverses over the whole representable range). -/
theorem design_code_design_id_roundtrip (n : Nat) (h : n < 30 ^ 12) :
    design_id (design_code n) = Except.ok n := by
  unfold design_id
  rw [filter_design_code, designIdLoop_map_toCodeChar _ 0 (base30digits_lt 12 n),
    foldl_base30digits, Nat.zero_mul, Nat.zero_add, Nat.mod_eq_of_lt h]

/-- Witness for C1 at id 123. -/
theorem design_code_design_id_roundtrip_witness :
    (123 : Nat) < 30 ^ 12 ∧ design_id (design_code 123) = Except.ok 123 :=
  ⟨by norm_num, design_code_design_id_roundtrip 123 (by norm_num)⟩

/-- C2: the claim says the tile count is `(W' div W) · (H' div H)`, but
`num_tiles` computes `width // WIDTH * height // HEIGHT`, which by Python's
left-associative precedence is `((width // WIDTH) * height) // HEIGHT`: at a
64×48 source with 32×32 tiles the code yields 3 while the claimed formula
yields 2·1 = 2. -/
theorem num_tiles_precedence_at_64_48 :
    num_tiles 64 48 = 3 ∧ 64 / WIDTH * (48 / HEIGHT) = 2 := by decide

/-- C3: on a code whose characters (after hyphen removal) are exactly twelve
alphabet symbols, `design_id` returns the weighted sum Σ value(c_i) · 30^(11-i). -/
theorem design_id_weighted_sum (s : String)
    (c0 c1 c2 c3 c4 c5 c6 c7 c8 c9 c10 c11 : Char)
    (v0 v1 v2 v3 v4 v5 v6 v7 v8 v9 v10 v11 : Nat)
    (hs : s.toList.filter (fun c => c ≠ '-') = [c0, c1, c2, c3, c4, c5, c6, c7, c8, c9, c10, c11])
    (h0 : alphabetValue c0 = some v0) (h1 : alphabetValue c1 = some v1)
    (h2 : alphabetValue c2 = some v2) (h3 : alphabetValue c3 = some v3)
    (h4 : alphabetValue c4 = some v4) (h5 : alphabetValue c5 = some v5)
    (h6 : alphabetValue c6 = some v6) (h7 : alphabetValue c7 = some v7)
    (h8 : alphabetValue c8 = some v8) (h9 : alphabetValue c9 = some v9)
    (h10 : alphabetValue c10 = some v10) (h11 : alphabetValue c11 = some v11) :
    design_id s = Except.ok
      (v0 * 30 ^ 11 + v1 * 30 ^ 10 + v2 * 30 ^ 9 + v3 * 30 ^ 8 + v4 * 30 ^ 7 + v5 * 30 ^ 6 +
        v6 * 30 ^ 5 + v7 * 30 ^ 4 + v8 * 30 ^ 3 + v9 * 30 ^ 2 + v10 * 30 + v11) := by
  unfold design_id
  rw [hs]
  simp only [designIdLoop, h0, h1, h2, h3, h4, h5, h6, h7, h8, h9, h10, h11]
  congr 1
  ring

/-- Witness for C3 on the code `0123-4567-89BC`. -/
theorem design_id_weighted_sum_witness :
    design_id "0123-4567-89BC" = Except.ok
      (0 * 30 ^ 11 + 1 * 30 ^ 10 + 2 * 30 ^ 9 + 3 * 30 ^ 8 + 4 * 30 ^ 7 + 5 * 30 ^ 6 +
        6 * 30 ^ 5 + 7 * 30 ^ 4 + 8 * 30 ^ 3 + 9 * 30 ^ 2 + 10 * 30 + 11) :=
  design_id_weighted_sum "0123-4567-89BC" '0' '1' '2' '3' '4' '5' '6' '7' '8' '9' 'B' 'C'
    0 1 2 3 4 5 6 7 8 9 10 11 rfl rfl rfl rfl rfl rfl rfl rfl rfl rfl rfl rfl rfl

/-- C4: the unpacking loop takes each byte's low nibble first and high nibble
second, resolves each through the palette, and emits the two pixels in that
order, so each input byte contributes exactly two RGBA pixels (eight bytes). -/
theorem render_low_nibble_then_high (raw : RawImage) (layer : List Nat)
    (h : ∀ b ∈ layer, ((gen_palette raw) (b % 16)).isSome ∧
      ((gen_palette raw) (b / 16 % 16)).isSome) :
    renderBytes (gen_palette raw) layer = Except.ok (unpackPixels (gen_palette raw) layer) ∧
      (unpackPixels (gen_palette raw) layer).length = 8 * layer.length :=
  ⟨renderBytes_covered _ _ h, unpackPixels_length _ _⟩

/-- Witness for C4 on the single byte 0x21 (low nibble 1, high nibble 2). -/
theorem render_low_nibble_then_high_witness :
    (∀ b ∈ [33], ((gen_palette sampleRaw) (b % 16)).isSome ∧
        ((gen_palette sampleRaw) (b / 16 % 16)).isSome) ∧
      (renderBytes (gen_palette sampleRaw) [33] =
          Except.ok (unpackPixels (gen_palette sampleRaw) [33]) ∧
        (unpackPixels (gen_palette sampleRaw) [33]).length = 8 * [33].length) :=
  ⟨by decide, render_low_nibble_then_high sampleRaw [33] (by decide)⟩

/-- C5: after `gen_palette`, slot 15 maps to color 0 whatever the document's
`mPalette` stores, and a pixel whose nibble is 15 renders as the fully
transparent RGBA bytes `[0, 0, 0, 0]` (alpha 0). -/
theorem palette_slot15_transparent (raw : RawImage) :
    gen_palette raw 15 = some 0 ∧
      renderNibble (gen_palette raw) 15 = Except.ok [0, 0, 0, 0] :=
  ⟨rfl, rfl⟩

/-- C6: when the packed buffer's length differs from `WIDTH·HEIGHT/2` (and every
nibble resolves in the palette, so no lookup fails first), `_render_layer` ends
in the buffer-length validation error of the final pixel import instead of
producing a raster. -/
theorem render_wrong_length_size_error (raw : RawImage) (pal : Nat → Option Nat)
    (layer : List Nat)
    (hlen : layer.length ≠ WIDTH * HEIGHT / 2)
    (hcov : ∀ b ∈ layer, ((gen_palette raw) (b % 16)).isSome ∧
      ((gen_palette raw) (b / 16 % 16)).isSome) :
    _render_layer raw pal layer = Except.error RenderError.importSizeMismatch := by
  have hrb := renderBytes_covered (gen_palette raw) layer hcov
  have hne : ¬ (unpackPixels (gen_palette raw) layer).length = WIDTH * HEIGHT * 4 := by
    rw [unpackPixels_length]
    simp only [WIDTH, HEIGHT] at hlen ⊢
    omega
  simp [_render_layer, hrb, hne]

/-- Witness for C6 on the empty buffer. -/
theorem render_wrong_length_size_error_witness :
    (([] : List Nat).length ≠ WIDTH * HEIGHT / 2) ∧
      (∀ b ∈ ([] : List Nat), ((gen_palette sampleRaw) (b % 16)).isSome ∧
        ((gen_palette sampleRaw) (b / 16 % 16)).isSome) ∧
      _render_layer sampleRaw (fun _ => none) [] =
        Except.error RenderError.importSizeMismatch :=
  ⟨by decide, by decide,
    render_wrong_length_size_error sampleRaw (fun _ => none) [] (by decide) (by decide)⟩

/-- C7 counterexample: `design_id` does not reject inputs of the wrong length —
the one-character code `"0"` (not 12 characters, not 4-4-4 grouped) is accepted
and decodes to 0. -/
theorem design_id_accepts_short_input :
    design_id "0" = Except.ok 0 ∧ ("0".toList.filter (fun c => c ≠ '-')).length = 1 :=
  ⟨rfl, rfl⟩

/-- C7 amended: `design_id` itself fails with the invalid-design-code error iff
some character other than a hyphen lies outside the alphabet; the
exactly-12-characters and 4-4-4-grouping requirements are enforced separately by
the regex full-match validation (`InvalidDesignCodeError.validate`), not by
`design_id`. -/
theorem design_id_error_iff_bad_char (s : String) :
    design_id s = Except.error DesignsError.invalidDesignCode ↔
      ∃ c ∈ s.toList.filter (fun c => c ≠ '-'), alphabetValue c = none :=
  designIdLoop_error_iff _ 0

/-- C8 counterexample: `"ABCD-1234-WXYZ"` is not made of alphabet characters —
'A' and 'Z' are excluded from `0123456789BCDFGHJKLMNPQRSTVWXY` — and
`design_id` rejects it as malformed rather than decoding it. -/
theorem design_id_rejects_claimed_example :
    design_id "ABCD-1234-WXYZ" = Except.error DesignsError.invalidDesignCode := rfl

/-- C8 amended: with the out-of-alphabet characters 'A' and 'Z' replaced by
in-alphabet ones, the code `"BBCD-1234-WXYY"` decodes to a single non-negative
integer strictly below 30^12. -/
theorem design_id_accepts_alphabet_example :
    design_id "BBCD-1234-WXYY" = Except.ok 183276309604895099 ∧
      (183276309604895099 : Nat) < 30 ^ 12 :=
  ⟨rfl, by norm_num⟩

/-- C9: serializing an `InvalidLayerIndexError` does not produce the claimed
dictionary: the class never assigns `http_status`, so `super().to_dict()` raises
`AttributeError` (and even past that, `to_dict` lacks a `return` statement and
would produce `None`). -/
theorem invalid_layer_index_to_dict_attribute_error :
    InvalidLayerIndexError_to_dict 3 = Except.error PyExn.attributeError := rfl

/-- C10: `_render_layer` ignores its palette argument — it recomputes the palette
from `raw_image` (line 20 shadows the parameter) — so any two palette arguments
give identical results. -/
theorem render_layer_palette_independent (raw : RawImage)
    (p1 p2 : Nat → Option Nat) (layer : List Nat) :
    _render_layer raw p1 layer = _render_layer raw p2 layer := rfl

end ACNH
